import Mathlib

/-!
# Verification of the Transformer-encoder notebook

Shallow embedding of `src/.ipynb_checkpoints/Transformer-checkpoint.ipynb`.

Tensors are modelled as total index functions (row-major layout): a tensor of
shape `(batch, seq_len, d_model)` is a function `ℕ → ℕ → ℕ → ℝ` read at
in-range indices; `view` and `transpose` are the usual flat-index relabelings.
Python runtime failures (AssertionError, AttributeError, NameError, TypeError,
ZeroDivisionError) are modelled with `Except PyError`.
-/

/-- The Python exceptions raised by the code paths modelled here. -/
inductive PyError : Type where
  | assertionError : PyError
  | zeroDivisionError : PyError
  | attributeError : String → PyError
  | nameError : String → PyError
  | typeError : PyError
deriving DecidableEq, Repr

/-- Python positional-call check: calling a function declared with
`paramCount` parameters with `argCount` positional arguments raises
`TypeError` unless the counts agree. -/
def pyCallCheck (paramCount argCount : ℕ) : Except PyError Unit :=
  if argCount = paramCount then .ok () else .error .typeError

/-- Python attribute lookup on an object whose attribute names are `attrs`:
a name not among them raises `AttributeError`. -/
def pyGetAttr (attrs : List String) (name : String) : Except PyError Unit :=
  if name ∈ attrs then .ok () else .error (.attributeError name)

/-! ## Head-splitting tensor algebra (`MultiHeadAttentionBlock.forward`)

Source, query branch (the comment in the notebook documents the shapes):
`query.view(query.shape[0], query.shape[1], self.h, self.d_k).transpose(1, 2)`
i.e. `(batch, seq_len, d_model) -> (batch, seq_len, h, d_k) -> (batch, h, seq_len, d_k)`,
and the recombination
`x.transpose(1, 2).contiguous().view(x.shape[0], -1, self.h * self.d_k)`. -/

/-- `t.view(batch, seq_len, h, d_k)`: split the last (row-major) axis of a
3-d tensor into `(·, d_k)` pairs; entry `(b, j, a, c)` reads flat feature
index `a * d_k + c`. -/
def MultiHeadAttentionBlock.view4 {α : Type} (d_k : ℕ) (t : ℕ → ℕ → ℕ → α) :
    ℕ → ℕ → ℕ → ℕ → α :=
  fun b j a c => t b j (a * d_k + c)

/-- `u.transpose(1, 2)` on a 4-d tensor: swap the axes at positions 1 and 2. -/
def MultiHeadAttentionBlock.transpose12 {α : Type} (u : ℕ → ℕ → ℕ → ℕ → α) :
    ℕ → ℕ → ℕ → ℕ → α :=
  fun b a j c => u b j a c

/-- `u.contiguous().view(batch, -1, h * d_k)`: merge the last two (row-major)
axes of a 4-d tensor back into one feature axis. -/
def MultiHeadAttentionBlock.view3 {α : Type} (d_k : ℕ) (u : ℕ → ℕ → ℕ → ℕ → α) :
    ℕ → ℕ → ℕ → α :=
  fun b j e => u b j (e / d_k) (e % d_k)

/-- Step 2 of the forward pass: reshape `(batch, seq_len, d_model)` to
`(batch, seq_len, h, d_k)` and transpose to `(batch, h, seq_len, d_k)`. -/
def MultiHeadAttentionBlock.splitHeads {α : Type} (d_k : ℕ) (t : ℕ → ℕ → ℕ → α) :
    ℕ → ℕ → ℕ → ℕ → α :=
  MultiHeadAttentionBlock.transpose12 (MultiHeadAttentionBlock.view4 d_k t)

/-- Step 8 of the forward pass: transpose `(batch, h, seq_len, d_k)` back to
`(batch, seq_len, h, d_k)` and merge the last two axes into `d_model`. -/
def MultiHeadAttentionBlock.combineHeads {α : Type} (d_k : ℕ) (u : ℕ → ℕ → ℕ → ℕ → α) :
    ℕ → ℕ → ℕ → α :=
  MultiHeadAttentionBlock.view3 d_k (MultiHeadAttentionBlock.transpose12 u)

/-! ## MultiHeadAttentionBlock construction (`__init__`)

Source:
```
self.d_model = d_model
self.h = h
assert d_model % h == 0, "d_model is not divisible by h"
self.d_k = d_model // h
```
The four `nn.Linear(d_model, d_model)` parameter holders and the
`nn.Dropout` module are learned/external state supplied by the framework's
initializer (spec section 3, lifecycle) and play no role in the
construction-time divisibility check; only the configuration fields are
modelled. -/

structure MultiHeadAttentionBlock where
  d_model : ℕ
  h : ℕ
  d_k : ℕ
  dropoutRate : ℝ

/-- `MultiHeadAttentionBlock.__init__`: Python `d_model % h` raises
`ZeroDivisionError` when `h = 0`; otherwise the `assert` raises
`AssertionError` unless `h` divides `d_model`; on success `d_k` is fixed to
`d_model // h`. -/
def MultiHeadAttentionBlock.init (d_model h : ℕ) (dropout : ℝ) :
    Except PyError MultiHeadAttentionBlock :=
  if h = 0 then .error .zeroDivisionError
  else if d_model % h = 0 then
    .ok { d_model := d_model, h := h, d_k := d_model / h, dropoutRate := dropout }
  else .error .assertionError

/-! ## The static `attention` helper and its call site

The helper is declared
`def attention(query, key, value, dropout: nn.Dropout):` — four parameters,
`mask` not among them (its body nevertheless reads the bare name `mask`).
`forward` calls it as
`MultiHeadAttentionBlock.attention(query, key, value, mask, self.dropout)` —
five positional arguments. -/

/-- The parameter list of the static helper `MultiHeadAttentionBlock.attention`. -/
def MultiHeadAttentionBlock.attentionParams : List String :=
  ["query", "key", "value", "dropout"]

/-- The positional-argument expressions of the call to the helper inside
`MultiHeadAttentionBlock.forward`. -/
def MultiHeadAttentionBlock.attentionCallArgs : List String :=
  ["query", "key", "value", "mask", "self.dropout"]

/-- The names bound in the scope of `MultiHeadAttentionBlock.forward`: its
locals (parameters and assigned variables) together with the notebook's
module-level globals. Neither `d_k` nor `view` is a Python builtin, so a bare
reference to either raises `NameError`. -/
def MultiHeadAttentionBlock.forwardBoundNames : List String :=
  ["self", "q", "k", "v", "mask", "query", "key", "value", "x",
   "torch", "nn", "math",
   "InputEmbeddings", "PositionalEncoding", "LayerNormalization",
   "FeedForwardBlock", "MultiHeadAttentionBlock", "ResidualConnection"]

/-- The bare names referenced by the query head-split statement
`query = query.view(query.shape[0], query.shape[1], self.h, self,d_k).transpose(1, 2)`:
the misplaced comma in `self,d_k` makes `self` and the undefined `d_k` two
separate positional arguments. -/
def MultiHeadAttentionBlock.querySplitFreeNames : List String :=
  ["query", "self", "d_k"]

/-- Head-split of the key as the source writes it:
`key = query.view(key.shape[0], key.shape[1], self.h, self.d_k).transpose(1, 2)`
reads the data of the projected *query* tensor. -/
def MultiHeadAttentionBlock.keySplitAsWritten (d_k : ℕ)
    (query _key : ℕ → ℕ → ℕ → ℝ) : ℕ → ℕ → ℕ → ℕ → ℝ :=
  MultiHeadAttentionBlock.splitHeads d_k query

/-- Head-split of the key as claimed: the split reads the projected key
tensor itself. Modelled from the spec: "Split heads: reshape each of q, k, v
... The corrected behavior (each of q, k, v independently reshaped) is what
this spec mandates." -/
def MultiHeadAttentionBlock.keySplitPerSpec (d_k : ℕ)
    (_query key : ℕ → ℕ → ℕ → ℝ) : ℕ → ℕ → ℕ → ℕ → ℝ :=
  MultiHeadAttentionBlock.splitHeads d_k key

/-- A concrete all-zero projected query tensor. -/
def qZero : ℕ → ℕ → ℕ → ℝ := fun _ _ _ => 0

/-- A concrete all-one projected key tensor. -/
def kOne : ℕ → ℕ → ℕ → ℝ := fun _ _ _ => 1

/-! ## LayerNormalization

Source:
```
mean = x.mean(dim = -1, keepdim = True)
std = x.std(dim = -1, keepdim = True)
return self.alpha * (x - mean) / (std + self.eps) + self.bias
```
`mean`/`std` reduce the innermost axis and the remaining operations broadcast
elementwise, so the forward pass acts independently on each innermost vector
of length `d_model`; it is modelled on one such vector. -/

/-- `x.mean(dim = -1)` on one innermost vector of length `n`. -/
noncomputable def torchMean {n : ℕ} (x : Fin n → ℝ) : ℝ :=
  (∑ i, x i) / n

/-- `x.std(dim = -1)` on one innermost vector: torch's default standard
deviation is the *sample* standard deviation (Bessel's correction,
divisor `n - 1`). -/
noncomputable def torchStd {n : ℕ} (x : Fin n → ℝ) : ℝ :=
  Real.sqrt ((∑ i, (x i - torchMean x) ^ 2) / ((n : ℝ) - 1))

/-- The default `eps` of `LayerNormalization.__init__`, `10**-6`. -/
noncomputable def LayerNormalization.epsDefault : ℝ := (10 : ℝ) ^ (-(6 : ℤ))

/-- `LayerNormalization.forward` on one innermost vector; `alpha` and `bias`
are the two learned scalars (initialized to `torch.ones(1)` and
`torch.zeros(1)`). -/
noncomputable def LayerNormalization.forward (alpha bias eps : ℝ) {n : ℕ}
    (x : Fin n → ℝ) : Fin n → ℝ :=
  fun k => alpha * (x k - torchMean x) / (torchStd x + eps) + bias

/-! ## ResidualConnection

Source: `__init__` stores `nn.Dropout(dropout)` and a default-constructed
`LayerNormalization()` (so `alpha = 1`, `bias = 0`, `eps = 10**-6`), and
`forward(x, sublayer)` returns `x + self.dropout(sublayer(self.norm(x)))`.
The dropout module is modelled by the tensor function it denotes;
`nn.Dropout(0)` and evaluation mode both denote the identity. -/

/-- `ResidualConnection.forward(x, sublayer)`:
`x + dropout(sublayer(layernorm(x)))`, pre-norm. -/
noncomputable def ResidualConnection.forward {n : ℕ}
    (drop sub : (Fin n → ℝ) → Fin n → ℝ) (x : Fin n → ℝ) : Fin n → ℝ :=
  fun k =>
    x k + drop (sub (LayerNormalization.forward 1 0 LayerNormalization.epsDefault x)) k

/-! ## FeedForwardBlock

Source `__init__` registers the submodules under the names `Linear_1`,
`dropout`, `Linear_2` (capital `L`); `forward` is
`return self.linear_2(self.dropout(torch.relu(self.linear_1(x))))`
(lowercase `l`). Python attribute names are case-sensitive, and the callee
`self.linear_2` is resolved before the argument expression is evaluated. -/

/-- An `nn.Linear(inF, outF)` module: a learned weight matrix
`(outF × inF)` and bias vector, applied as `v ↦ W·v + b`. -/
structure NNLinear (inF outF : ℕ) where
  weight : Fin outF → Fin inF → ℝ
  bias : Fin outF → ℝ

/-- Application of an `nn.Linear` module to one innermost vector. -/
noncomputable def NNLinear.apply {inF outF : ℕ} (l : NNLinear inF outF)
    (v : Fin inF → ℝ) : Fin outF → ℝ :=
  fun o => (∑ i, l.weight o i * v i) + l.bias o

/-- The all-zero `nn.Linear` module. -/
noncomputable def NNLinear.zero (inF outF : ℕ) : NNLinear inF outF :=
  { weight := fun _ _ => 0, bias := fun _ => 0 }

/-- The attribute names `FeedForwardBlock.__init__` registers on the
instance. -/
def FeedForwardBlock.initAttrs : List String := ["Linear_1", "dropout", "Linear_2"]

/-- The arithmetic of the `forward` line under the names `__init__` actually
registered: `dropout(max(0, x·W1 + b1))·W2 + b2`. Modelled from the spec
(section 4.4 and the notebook's own markdown `FFN(x) = max(0, xW1 + b1)W2 + b2`),
since the line as written never resolves its attributes. -/
noncomputable def FeedForwardBlock.ffn {d_model d_ff : ℕ}
    (l1 : NNLinear d_model d_ff) (l2 : NNLinear d_ff d_model)
    (drop : (Fin d_ff → ℝ) → Fin d_ff → ℝ) (x : Fin d_model → ℝ) :
    Fin d_model → ℝ :=
  l2.apply (drop (fun j => max 0 (l1.apply x j)))

/-- `FeedForwardBlock.forward`: Python first resolves the callee
`self.linear_2`, then the inner callees `self.dropout` and `self.linear_1`;
a failed lookup raises before anything else runs. The `.ok` payload (never
reached) carries the intended arithmetic. -/
noncomputable def FeedForwardBlock.forward {d_model d_ff : ℕ}
    (l1 : NNLinear d_model d_ff) (l2 : NNLinear d_ff d_model)
    (drop : (Fin d_ff → ℝ) → Fin d_ff → ℝ) (x : Fin d_model → ℝ) :
    Except PyError (Fin d_model → ℝ) := do
  let _ ← pyGetAttr FeedForwardBlock.initAttrs "linear_2"
  let _ ← pyGetAttr FeedForwardBlock.initAttrs "dropout"
  let _ ← pyGetAttr FeedForwardBlock.initAttrs "linear_1"
  pure (FeedForwardBlock.ffn l1 l2 drop x)

/-! ## PositionalEncoding

Source `__init__`:
```
position = torch.arange(0, seq_len, dtype = torch.float).unsqueeze(1)
div_term = torch.exp(torch.arange(0, d_model, 2).float() * (math.log(10000.0) / d_model))
pe[:, 0::2] = torch.sin(position * div_term)
pe[:, 1::2] = torch.cos(position * div_term)
pe = pe.unsqueece(0)
```
Entry `i` of `div_term` is `exp((2 i) · log(10000) / d_model)` — the
reference formula's negative sign is missing — and `pe = pe.unsqueece(0)`
misspells `unsqueeze`, so construction raises `AttributeError` after the
table is filled. `__init__` also stores the raw dropout float
(`self.dropout = dropout`), not an `nn.Dropout` module, so `forward`'s
`self.dropout(x)` would raise `TypeError`. -/

/-- Entry `i` of `div_term`: `exp((2 i) · (log 10000 / d_model))`. -/
noncomputable def PositionalEncoding.div_term (d_model i : ℕ) : ℝ :=
  Real.exp (((2 * i : ℕ) : ℝ) * (Real.log 10000 / (d_model : ℝ)))

/-- The even table entry the source computes:
`pe[pos, 2 i] = sin(position · div_term[i]) = sin(pos · 10000^(2i/d_model))`. -/
noncomputable def PositionalEncoding.peEven (d_model pos i : ℕ) : ℝ :=
  Real.sin ((pos : ℝ) * PositionalEncoding.div_term d_model i)

/-- The odd table entry the source computes:
`pe[pos, 2 i + 1] = cos(position · div_term[i])`. -/
noncomputable def PositionalEncoding.peOdd (d_model pos i : ℕ) : ℝ :=
  Real.cos ((pos : ℝ) * PositionalEncoding.div_term d_model i)

/-- The even table entry the claim states. Modelled from the spec:
`table[pos, 2i] = sin(pos / 10000^(2i/d_model))`. -/
noncomputable def PositionalEncoding.peClaimEven (d_model pos i : ℕ) : ℝ :=
  Real.sin ((pos : ℝ) / (10000 : ℝ) ^ (((2 * i : ℕ) : ℝ) / (d_model : ℝ)))

/-- torch.Tensor attribute names this notebook relies on; all exist in the
torch API (the tensor library is an assumed-correct external collaborator,
spec section 6). The misspelled `unsqueece` is not among them. -/
def torchTensorMethods : List String :=
  ["mean", "std", "view", "transpose", "contiguous", "masked_fill_",
   "softmax", "unsqueeze", "requires_grad_", "shape", "float"]

/-- `PositionalEncoding.__init__`: fills the table `pe` (even columns
`peEven`, odd columns `peOdd`), then executes `pe = pe.unsqueece(0)`, whose
attribute lookup fails; the `.ok` payload (never reached) would be the
filled table. -/
noncomputable def PositionalEncoding.init (d_model _seq_len : ℕ) (_dropout : ℝ) :
    Except PyError (ℕ → ℕ → ℝ) := do
  let pe : ℕ → ℕ → ℝ := fun pos j =>
    if j % 2 = 0 then PositionalEncoding.peEven d_model pos (j / 2)
    else PositionalEncoding.peOdd d_model pos (j / 2)
  let _ ← pyGetAttr torchTensorMethods "unsqueece"
  pure pe

/-! ## Theorems -/

/-- Claim C5: for every `d_model` and `h` with `d_model % h == 0` (so
`d_k = d_model / h`), splitting a `(batch, seq_len, d_model)` tensor into `h`
heads (`view` to `(batch, seq_len, h, d_k)`, `transpose(1, 2)`) and then
recombining (`transpose(1, 2)`, `contiguous().view`) restores every entry of
the original tensor: step 8 inverts the head-split of step 2. -/
theorem combineHeads_splitHeads_roundTrip (d_model h d_k : ℕ)
    (_hmod : d_model % h = 0) (_hdk : d_k = d_model / h)
    (t : ℕ → ℕ → ℕ → ℝ) (b j e : ℕ) (_he : e < d_model) :
    MultiHeadAttentionBlock.combineHeads d_k
      (MultiHeadAttentionBlock.splitHeads d_k t) b j e = t b j e := by
  simp only [MultiHeadAttentionBlock.combineHeads, MultiHeadAttentionBlock.splitHeads,
    MultiHeadAttentionBlock.view3, MultiHeadAttentionBlock.view4,
    MultiHeadAttentionBlock.transpose12]
  exact congrArg (t b j) (Nat.div_add_mod' e d_k)

/-- Witness for C5 at `d_model = 4`, `h = 2`, `d_k = 2`, at entry
`(b, j, e) = (0, 1, 3)` of the tensor `t b j e = b + 10 * j + 100 * e`
(so the restored entry is `0 + 10 + 300 = 310`). -/
theorem combineHeads_splitHeads_roundTrip_witness :
    4 % 2 = 0 ∧ 2 = 4 / 2 ∧ 3 < 4 ∧
    MultiHeadAttentionBlock.combineHeads 2
      (MultiHeadAttentionBlock.splitHeads 2
        (fun b j e => ((b + 10 * j + 100 * e : ℕ) : ℝ))) 0 1 3 = 310 := by
  refine ⟨by norm_num, by norm_num, by norm_num, ?_⟩
  have h1 := combineHeads_splitHeads_roundTrip 4 2 2 (by norm_num) (by norm_num)
    (fun b j e => ((b + 10 * j + 100 * e : ℕ) : ℝ)) 0 1 3 (by norm_num)
  simpa using h1

/-- Claim C9: constructing a `MultiHeadAttentionBlock` succeeds exactly when
`h` is nonzero and divides `d_model` — otherwise `__init__` raises before any
instance exists (construction-time, never forward-time) — and every
successfully constructed instance carries `d_k = d_model / h`, fixed at
construction along with `d_model` and `h`. -/
theorem multiHeadAttentionBlock_init_divisibility (d_model h : ℕ) (p : ℝ) :
    ((∃ blk, MultiHeadAttentionBlock.init d_model h p = .ok blk) ↔
      (h ≠ 0 ∧ d_model % h = 0)) ∧
    (∀ blk, MultiHeadAttentionBlock.init d_model h p = .ok blk →
      blk.d_k = d_model / h ∧ blk.d_model = d_model ∧ blk.h = h) := by
  constructor
  · constructor
    · rintro ⟨blk, hblk⟩
      unfold MultiHeadAttentionBlock.init at hblk
      split_ifs at hblk with h0 hm
      all_goals try cases hblk
      exact ⟨h0, hm⟩
    · rintro ⟨h0, hm⟩
      refine ⟨⟨d_model, h, d_model / h, p⟩, ?_⟩
      simp [MultiHeadAttentionBlock.init, h0, hm]
  · intro blk hblk
    unfold MultiHeadAttentionBlock.init at hblk
    split_ifs at hblk with h0 hm
    all_goals try cases hblk
    exact ⟨rfl, rfl, rfl⟩

/-- Claim C1 (code_bug evidence): the call
`MultiHeadAttentionBlock.attention(query, key, value, mask, self.dropout)`
inside `forward` passes five positional arguments to a helper declared with
four parameters, so every call raises `TypeError`; moreover `mask` is not a
parameter of the helper at all, so no mask can ever be supplied to it. The
mask-fill line in the helper's body is therefore unreachable. -/
theorem attention_mask_not_suppliable :
    pyCallCheck MultiHeadAttentionBlock.attentionParams.length
        MultiHeadAttentionBlock.attentionCallArgs.length = .error .typeError ∧
    "mask" ∉ MultiHeadAttentionBlock.attentionParams := by
  constructor
  · rfl
  · decide

/-- Claim C2 (code_bug evidence): the source line
`key = query.view(key.shape[0], key.shape[1], self.h, self.d_k).transpose(1, 2)`
head-splits the projected *query* tensor where the claim requires the
projected key tensor: on the concrete pair `qZero`/`kOne` the split as
written reads `0` at head 0, row 0, feature 0, while the spec-mandated split
reads `1`, so the two disagree. -/
theorem keySplit_aliases_query :
    MultiHeadAttentionBlock.keySplitAsWritten 1 qZero kOne 0 0 0 0 = 0 ∧
    MultiHeadAttentionBlock.keySplitPerSpec 1 qZero kOne 0 0 0 0 = 1 ∧
    MultiHeadAttentionBlock.keySplitAsWritten 1 qZero kOne ≠
      MultiHeadAttentionBlock.keySplitPerSpec 1 qZero kOne := by
  refine ⟨rfl, rfl, fun hcontra => ?_⟩
  have h0 := congrFun (congrFun (congrFun (congrFun hcontra 0) 0) 0) 0
  have : (0 : ℝ) = 1 := h0
  norm_num at this

/-- Claim C10 (code_bug evidence): the query head-split statement of
`MultiHeadAttentionBlock.forward` references the bare name `d_k` (from the
`self,d_k` typo), and neither `d_k` nor `view` (referenced bare by the value
head-split statement) is bound in the scope of `forward`; the statement
therefore raises `NameError` before the line
`x, self.attention_scores = MultiHeadAttentionBlock.attention(...)` can run,
so no call to `forward` ever writes `attention_scores`. -/
theorem forward_raises_before_storing_attention_scores :
    "d_k" ∈ MultiHeadAttentionBlock.querySplitFreeNames ∧
    "d_k" ∉ MultiHeadAttentionBlock.forwardBoundNames ∧
    "view" ∉ MultiHeadAttentionBlock.forwardBoundNames := by
  refine ⟨?_, ?_, ?_⟩ <;> decide

/-- Claim C4: on every innermost vector `x` of length `n ≥ 2`,
`LayerNormalization.forward` returns `alpha * (x - mean) / (std + eps) + bias`
elementwise, where `mean` is the average of the vector (`n * mean = sum`),
`std` is the sample standard deviation over the same axis
(`std² * (n - 1) = sum of squared deviations`, `std ≥ 0`), `eps` is added to
the standard deviation itself (it sits beside `std` in the denominator, not
under the square root), and the default `eps` is `10⁻⁶`. -/
theorem layerNorm_formula {n : ℕ} (hn : 2 ≤ n) (alpha bias eps : ℝ)
    (x : Fin n → ℝ) (k : Fin n) :
    LayerNormalization.forward alpha bias eps x k =
      alpha * (x k - torchMean x) / (torchStd x + eps) + bias ∧
    (n : ℝ) * torchMean x = ∑ i, x i ∧
    torchStd x ^ 2 * ((n : ℝ) - 1) = ∑ i, (x i - torchMean x) ^ 2 ∧
    0 ≤ torchStd x ∧
    LayerNormalization.epsDefault = 1 / 1000000 := by
  have h2 : (2 : ℝ) ≤ (n : ℝ) := by exact_mod_cast hn
  have hn0 : (n : ℝ) ≠ 0 := by linarith
  have hn1 : (n : ℝ) - 1 ≠ 0 := by linarith
  refine ⟨rfl, ?_, ?_, Real.sqrt_nonneg _, ?_⟩
  · unfold torchMean
    field_simp
  · unfold torchStd
    rw [Real.sq_sqrt (div_nonneg (Finset.sum_nonneg fun i _ => sq_nonneg _)
      (by linarith))]
    exact div_mul_cancel₀ _ hn1
  · unfold LayerNormalization.epsDefault
    norm_num

/-- Witness for C4 at `n = 2`, `alpha = 1`, `bias = 0`, `eps` the default,
`x = ![0, 2]`, `k = 0`. -/
theorem layerNorm_formula_witness :
    2 ≤ 2 ∧
    (LayerNormalization.forward 1 0 LayerNormalization.epsDefault ![0, 2] 0 =
        1 * ((![0, 2] : Fin 2 → ℝ) 0 - torchMean ![0, 2]) /
          (torchStd ![0, 2] + LayerNormalization.epsDefault) + 0 ∧
      ((2 : ℕ) : ℝ) * torchMean ![0, 2] = ∑ i, (![0, 2] : Fin 2 → ℝ) i ∧
      torchStd ![0, 2] ^ 2 * (((2 : ℕ) : ℝ) - 1) =
        ∑ i, ((![0, 2] : Fin 2 → ℝ) i - torchMean ![0, 2]) ^ 2 ∧
      0 ≤ torchStd (![0, 2] : Fin 2 → ℝ) ∧
      LayerNormalization.epsDefault = 1 / 1000000) :=
  ⟨le_refl 2, layerNorm_formula (le_refl 2) 1 0 LayerNormalization.epsDefault ![0, 2] 0⟩

/-- Claim C6: `ResidualConnection.forward(x, sublayer)` is
`x + dropout(sublayer(layernorm(x)))` with the normalization applied before
the sublayer (pre-norm); when the dropout is the identity (rate 0 /
evaluation mode) and the sublayer is the identity, the result is
`x + layernorm(x)` — checked numerically on `x = ![1, 3]`, whose entry 1 is
`3 + 1 / (√2 + 10⁻⁶)`. -/
theorem residual_preNorm :
    (∀ (n : ℕ) (drop sub : (Fin n → ℝ) → Fin n → ℝ) (x : Fin n → ℝ),
      ResidualConnection.forward drop sub x = fun k =>
        x k + drop (sub (LayerNormalization.forward 1 0
          LayerNormalization.epsDefault x)) k) ∧
    (∀ (n : ℕ) (x : Fin n → ℝ),
      ResidualConnection.forward id id x = fun k =>
        x k + LayerNormalization.forward 1 0 LayerNormalization.epsDefault x k) ∧
    ResidualConnection.forward id id ![(1 : ℝ), 3] 1 =
      3 + 1 / (Real.sqrt 2 + LayerNormalization.epsDefault) := by
  have hmean : torchMean (![(1 : ℝ), 3]) = 2 := by
    unfold torchMean
    norm_num [Fin.sum_univ_two]
  have hstd : torchStd (![(1 : ℝ), 3]) = Real.sqrt 2 := by
    unfold torchStd
    rw [hmean]
    norm_num [Fin.sum_univ_two]
  refine ⟨fun n drop sub x => rfl, fun n x => rfl, ?_⟩
  unfold ResidualConnection.forward LayerNormalization.forward
  rw [hmean, hstd]
  norm_num

/-- Claim C7 (code_bug evidence): every call of `FeedForwardBlock.forward`
raises `AttributeError` on `linear_2` — `__init__` registered the submodules
as `Linear_1`/`Linear_2`, and `forward` reads `self.linear_1`/`self.linear_2`
— so the claimed return value is never produced; the intended arithmetic of
the line, `dropout(max(0, x·W1 + b1))·W2 + b2`, does return the all-zero
vector whenever `W1, b1, W2, b2` are all zero, for every input and any
dropout. -/
theorem feedForward_attribute_mismatch :
    (∀ (d_model d_ff : ℕ) (l1 : NNLinear d_model d_ff)
        (l2 : NNLinear d_ff d_model) (drop : (Fin d_ff → ℝ) → Fin d_ff → ℝ)
        (x : Fin d_model → ℝ),
      FeedForwardBlock.forward l1 l2 drop x = .error (.attributeError "linear_2")) ∧
    "Linear_1" ∈ FeedForwardBlock.initAttrs ∧
    "linear_1" ∉ FeedForwardBlock.initAttrs ∧
    (∀ (d_model d_ff : ℕ) (drop : (Fin d_ff → ℝ) → Fin d_ff → ℝ)
        (x : Fin d_model → ℝ) (j : Fin d_model),
      FeedForwardBlock.ffn (NNLinear.zero d_model d_ff)
        (NNLinear.zero d_ff d_model) drop x j = 0) := by
  refine ⟨fun d_model d_ff l1 l2 drop x => rfl, by decide, by decide, ?_⟩
  intro d_model d_ff drop x j
  unfold FeedForwardBlock.ffn NNLinear.apply NNLinear.zero
  simp

/-- Claim C8 (code_bug evidence): every attempt to construct a
`PositionalEncoding` raises `AttributeError` at `pe = pe.unsqueece(0)`
(`unsqueeze` is the torch attribute, `unsqueece` is not), so no instance
exists on which `forward` could ever run and return the claimed
`dropout(input + table)` value. -/
theorem positionalEncoding_init_always_fails :
    (∀ (d_model seq_len : ℕ) (p : ℝ),
      PositionalEncoding.init d_model seq_len p =
        .error (.attributeError "unsqueece")) ∧
    "unsqueeze" ∈ torchTensorMethods ∧
    "unsqueece" ∉ torchTensorMethods := by
  exact ⟨fun d_model seq_len p => rfl, by decide, by decide⟩

/-- Claim C3 (code_bug evidence): `div_term` is missing the reference
formula's negative sign, so the table entry the source computes is
`sin(pos · 10000^(2i/d_model))` where the claim (and the notebook's own
markdown) states `sin(pos / 10000^(2i/d_model))`; at `d_model = 80`,
`pos = 1`, `i = 1` the two differ — both arguments `10000^(1/40)` and its
inverse lie in `[-π/2, π/2]`, where `sin` is strictly monotone. -/
theorem positionalEncoding_missing_negative_sign :
    PositionalEncoding.peEven 80 1 1 ≠ PositionalEncoding.peClaimEven 80 1 1 := by
  set r : ℝ := (10000 : ℝ) ^ ((1 : ℝ) / 40) with hr
  have hr1 : 1 < r := by
    rw [hr]
    rw [Real.one_lt_rpow_iff_of_pos (by norm_num)]
    norm_num
  have hrpos : (0 : ℝ) < r := lt_trans zero_lt_one hr1
  have hrpow : r ^ (40 : ℕ) = 10000 := by
    rw [hr, ← Real.rpow_natCast ((10000 : ℝ) ^ ((1 : ℝ) / 40)) 40,
      ← Real.rpow_mul (by norm_num : (0 : ℝ) ≤ 10000)]
    norm_num
  have hrle : r ≤ 1.26 := by
    by_contra hcon
    push_neg at hcon
    have h40 : (1.26 : ℝ) ^ (40 : ℕ) < r ^ (40 : ℕ) :=
      pow_lt_pow_left₀ hcon (by norm_num) (by norm_num)
    rw [hrpow] at h40
    norm_num at h40
  have hpihalf : (1.26 : ℝ) < Real.pi / 2 := by
    have h := Real.pi_gt_d6
    linarith
  have hA : r ∈ Set.Icc (-(Real.pi / 2)) (Real.pi / 2) := by
    constructor
    · have h0 : (0 : ℝ) < Real.pi / 2 := by positivity
      linarith
    · linarith
  have hBlt : r⁻¹ < 1 := inv_lt_one_of_one_lt₀ hr1
  have hBpos : (0 : ℝ) < r⁻¹ := inv_pos.mpr hrpos
  have hB : r⁻¹ ∈ Set.Icc (-(Real.pi / 2)) (Real.pi / 2) := by
    constructor
    · have h0 : (0 : ℝ) < Real.pi / 2 := by positivity
      linarith
    · linarith
  have hlt : Real.sin r⁻¹ < Real.sin r :=
    Real.strictMonoOn_sin hB hA (lt_trans hBlt hr1)
  have hcode : PositionalEncoding.peEven 80 1 1 = Real.sin r := by
    unfold PositionalEncoding.peEven PositionalEncoding.div_term
    rw [hr, Real.rpow_def_of_pos (by norm_num : (0 : ℝ) < 10000)]
    norm_num
    ring_nf
  have hclaim : PositionalEncoding.peClaimEven 80 1 1 = Real.sin r⁻¹ := by
    unfold PositionalEncoding.peClaimEven
    rw [hr]
    norm_num [one_div]
  rw [hcode, hclaim]
  exact ne_of_gt hlt
